import Mathlib

/-!
Shallow embedding of the URDF viewer controller
(`src/utils/urdf-viewer-element.js`) and proofs about its behaviour.

Numbers that the source manipulates as JS doubles are modelled as exact
rationals (`ℚ`); the quantities involved in the verified claims (bounding-box
corners, the `1e-3` ground-plane epsilon, joint values and limits) are exact
in both settings.  The external three.js scene graph is modelled by the data
the controller actually reads and writes: per-node type flags
(`isURDFVisual` / `isURDFCollider` / joint data), visibility, raycast
enablement, material identity, shadow casting, and a world-space geometry
bounding box per node.
-/

namespace UrdfViewer

/-- A 3-vector of exact coordinates (three.js `Vector3`). -/
structure V3 where
  x : ℚ
  y : ℚ
  z : ℚ
deriving DecidableEq, Repr

/-- A non-empty axis-aligned box (three.js `Box3` that is not `isEmpty()`).
An empty box (`makeEmpty`) is represented as `none : Option BoxNE`. -/
structure BoxNE where
  bmin : V3
  bmax : V3
deriving DecidableEq, Repr

/-- Union of (possibly empty) boxes, as produced by repeated
`Box3.expandByObject` / `union`. -/
def unionBox : Option BoxNE → Option BoxNE → Option BoxNE
  | none, b => b
  | some a, none => some a
  | some a, some b =>
      some ⟨⟨min a.bmin.x b.bmin.x, min a.bmin.y b.bmin.y, min a.bmin.z b.bmin.z⟩,
            ⟨max a.bmax.x b.bmax.x, max a.bmax.y b.bmax.y, max a.bmax.z b.bmax.z⟩⟩

/-- The y coordinate of `Box3.getCenter`; three.js returns the zero vector for
an empty box. -/
def centerY : Option BoxNE → ℚ
  | none => 0
  | some b => (b.bmin.y + b.bmax.y) / 2

/-- `Box3.getCenter` as a full vector (zero for an empty box). -/
def centerV : Option BoxNE → V3
  | none => ⟨0, 0, 0⟩
  | some b => ⟨(b.bmin.x + b.bmax.x) / 2, (b.bmin.y + b.bmax.y) / 2, (b.bmin.z + b.bmax.z) / 2⟩

/-- `bbox.min.y - 1e-3` as computed by `_updateEnvironment`; for an empty box
three.js has `min.y = +Infinity` and the subtraction stays infinite, which we
model with `⊤ : WithTop ℚ`. -/
def planeYOf : Option BoxNE → WithTop ℚ
  | none => ⊤
  | some b => ((b.bmin.y - 1/1000 : ℚ) : WithTop ℚ)

/-- The square of the bounding-sphere radius from `Box3.getBoundingSphere`
(`radius = size.length() / 2`; we track the square since the square root
leaves `ℚ`).  Empty boxes give size zero in three.js. -/
def radiusSq : Option BoxNE → ℚ
  | none => 0
  | some b =>
      ((b.bmax.x - b.bmin.x) ^ 2 + (b.bmax.y - b.bmin.y) ^ 2 + (b.bmax.z - b.bmin.z) ^ 2) / 4

/-- Componentwise vector sum. -/
def addV (a b : V3) : V3 := ⟨a.x + b.x, a.y + b.y, a.z + b.z⟩

/-- Componentwise vector difference. -/
def subV (a b : V3) : V3 := ⟨a.x - b.x, a.y - b.y, a.z - b.z⟩

/-- State of a URDF joint node as the viewer observes it. -/
structure JointState where
  jointValue : ℚ
  angle : ℚ
  lower : ℚ
  upper : ℚ
  ignoreLimits : Bool
deriving DecidableEq, Repr

/-- Modelled from the spec: the joint node's own value-setting policy, which
lives in `URDFLoader.js` (a file of this repository that is not under `src/`;
only its caller `urdf-viewer-element.js` is).  Per the spec, the policy "may
itself reject out-of-range values depending on ignoreJointLimits", the joint
keeps its requested value so that re-applying it under a new policy "may jump
to its originally requested value", and a "direct clamped set" clamps the
requested value into `[lower, upper]`.  The returned flag reports whether the
effective value actually changed. -/
def JointState.setJointValue (j : JointState) (v : ℚ) : JointState × Bool :=
  let a := if j.ignoreLimits then v else max j.lower (min j.upper v)
  ({ j with jointValue := v, angle := a }, decide (a ≠ j.angle))

/-- The material id of the single shared translucent collision material
(`this._collisionMaterial`, constructed once per viewer). -/
def collisionMaterialId : Nat := 1

/-- The per-node data the controller reads and writes on scene-graph objects. -/
structure NodeData where
  isURDFVisual : Bool := false
  isURDFCollider : Bool := false
  isMesh : Bool := false
  visible : Bool := true
  raycastEnabled : Bool := true
  castShadow : Bool := true
  material : Nat := 0
  geomBox : Option BoxNE := none
  joint : Option JointState := none
deriving DecidableEq, Repr

/-- A node is a URDF joint node exactly when it carries joint state. -/
def NodeData.isURDFJoint (d : NodeData) : Bool := d.joint.isSome

mutual

/-- A scene-graph object together with its children (`Object3D`). -/
inductive Node where
  | mk (data : NodeData) (children : NodeList)

/-- The children list of a scene-graph object. -/
inductive NodeList where
  | nil : NodeList
  | cons (head : Node) (tail : NodeList) : NodeList

end

mutual

/-- First phase of `_updateCollisionVisibility`: the `robot.traverse` pass
setting `c.visible = showCollision` on every `isURDFCollider` node. -/
def setColliderVis (flag : Bool) : Node → Node
  | .mk d cs =>
      .mk (if d.isURDFCollider then { d with visible := flag } else d)
        (setColliderVisL flag cs)

/-- `setColliderVis` on a children list. -/
def setColliderVisL (flag : Bool) : NodeList → NodeList
  | .nil => .nil
  | .cons h t => .cons (setColliderVis flag h) (setColliderVisL flag t)

end

mutual

/-- Second phase of `_updateCollisionVisibility`: for every mesh inside the
subtree of a collected collider (`colliders.forEach(coll => coll.traverse ...)`),
disable raycasting, substitute the shared collision material, and disable
shadow casting.  `under` records whether an ancestor (or the node itself) is a
collider, i.e. whether the node lies in some collected collider's subtree. -/
def applyCollMeshProps (under : Bool) : Node → Node
  | .mk d cs =>
      let under' := under || d.isURDFCollider
      let d' := if under' && d.isMesh then
          { d with raycastEnabled := false, material := collisionMaterialId,
                   castShadow := false }
        else d
      .mk d' (applyCollMeshPropsL under' cs)

/-- `applyCollMeshProps` on a children list. -/
def applyCollMeshPropsL (under : Bool) : NodeList → NodeList
  | .nil => .nil
  | .cons h t => .cons (applyCollMeshProps under h) (applyCollMeshPropsL under t)

end

/-- `_updateCollisionVisibility` restricted to the mounted robot subtree: the
collider-visibility pass followed by the collider-mesh pass over the collected
colliders. -/
def updateCollisionVisibility (flag : Bool) (r : Node) : Node :=
  applyCollMeshProps false (setColliderVis flag r)

mutual

/-- The `robot.traverse` walk of `_setIgnoreLimits`: on every URDF joint node,
set `c.ignoreLimits = ignore` and re-apply `c.setJointValue(c.jointValue)`. -/
def setIgnoreLimitsTree (flag : Bool) : Node → Node
  | .mk d cs =>
      let d' := match d.joint with
        | some j =>
            let j1 := { j with ignoreLimits := flag }
            { d with joint := some (j1.setJointValue j1.jointValue).1 }
        | none => d
      .mk d' (setIgnoreLimitsTreeL flag cs)

/-- `setIgnoreLimitsTree` on a children list. -/
def setIgnoreLimitsTreeL (flag : Bool) : NodeList → NodeList
  | .nil => .nil
  | .cons h t => .cons (setIgnoreLimitsTree flag h) (setIgnoreLimitsTreeL flag t)

end

mutual

/-- `Box3.expandByObject c`: the union of the world-space geometry boxes of
`c` and all of its descendants. -/
def subtreeBox : Node → Option BoxNE
  | .mk d cs => unionBox d.geomBox (subtreeBoxL cs)

/-- `subtreeBox` unioned over a children list. -/
def subtreeBoxL : NodeList → Option BoxNE
  | .nil => none
  | .cons h t => unionBox (subtreeBox h) (subtreeBoxL t)

end

mutual

/-- The bounding box computed by `_updateEnvironment`:
`robot.traverse(c => { if (c.isURDFVisual) bbox.expandByObject(c); })`. -/
def visualBBox : Node → Option BoxNE
  | .mk d cs =>
      unionBox (if d.isURDFVisual then subtreeBox (.mk d cs) else none) (visualBBoxL cs)

/-- `visualBBox` unioned over a children list. -/
def visualBBoxL : NodeList → Option BoxNE
  | .nil => none
  | .cons h t => unionBox (visualBBox h) (visualBBoxL t)

end

mutual

/-- Collects, in traverse order, the `visible` flag of every collider node. -/
def colliderVis : Node → List Bool
  | .mk d cs => (if d.isURDFCollider then [d.visible] else []) ++ colliderVisL cs

/-- `colliderVis` over a children list. -/
def colliderVisL : NodeList → List Bool
  | .nil => []
  | .cons h t => colliderVis h ++ colliderVisL t

end

mutual

/-- Collects, in traverse order, the `visible` flag of every non-collider node. -/
def nonColliderVis : Node → List Bool
  | .mk d cs => (if d.isURDFCollider then [] else [d.visible]) ++ nonColliderVisL cs

/-- `nonColliderVis` over a children list. -/
def nonColliderVisL : NodeList → List Bool
  | .nil => []
  | .cons h t => nonColliderVis h ++ nonColliderVisL t

end

mutual

/-- Collects `(raycastEnabled, material, castShadow)` of every mesh lying in
the subtree of a collider node (the meshes touched by the second phase of
`_updateCollisionVisibility`).  `under` records whether an ancestor is a
collider. -/
def collMeshProps (under : Bool) : Node → List (Bool × Nat × Bool)
  | .mk d cs =>
      let under' := under || d.isURDFCollider
      (if under' && d.isMesh then [(d.raycastEnabled, d.material, d.castShadow)] else []) ++
        collMeshPropsL under' cs

/-- `collMeshProps` over a children list. -/
def collMeshPropsL (under : Bool) : NodeList → List (Bool × Nat × Bool)
  | .nil => []
  | .cons h t => collMeshProps under h ++ collMeshPropsL under t

end

mutual

/-- Collects the joint state of every URDF joint node, in traverse order. -/
def jointsOf : Node → List JointState
  | .mk d cs => (match d.joint with | some j => [j] | none => []) ++ jointsOfL cs

/-- `jointsOf` over a children list. -/
def jointsOfL : NodeList → List JointState
  | .nil => []
  | .cons h t => jointsOf h ++ jointsOfL t

end

/-- The mounted robot: the scene subtree plus the loader-built name-to-joint
table (`robot.joints`; its entries index the joint nodes of the tree). -/
structure Robot where
  tree : Node
  joints : List (String × JointState)

/-- The custom events the element dispatches
(`urdf-change`, `urdf-processed`, `geometry-loaded`, `angle-change`). -/
inductive Event where
  | urdfChange
  | urdfProcessed
  | geometryLoaded
  | angleChange (jointName : String)
deriving DecidableEq, Repr

/-- The viewer element's state, restricted to what the verified operations
read and write.  `recenters`, `draws`, `controlsUpdates`, `disposedRobots` and
`imports` are instrumentation counters and logs recording, respectively, calls
of `recenter`, `renderer.render`, `controls.update`, the robot disposals done
by `_scheduleLoad`, and the `_loadUrdf` imports actually started. -/
structure Viewer where
  dirty : Bool := false
  loadScheduled : Bool := false
  prevload : Option String := none
  pkgAttr : String := ""
  urdfAttr : String := ""
  robot : Option Robot := none
  planeY : WithTop ℚ := ((-1/2 : ℚ) : WithTop ℚ)
  targetY : ℚ := 0
  displayShadow : Bool := false
  lightCastShadow : Bool := true
  shadowCamExtentSq : ℚ := 25
  lightPos : V3 := ⟨4, 10, 1⟩
  lightTargetPos : V3 := ⟨0, 0, 0⟩
  autoRedraw : Bool := false
  noAutoRecenter : Bool := false
  attached : Bool := true
  rendererW : Nat := 0
  rendererH : Nat := 0
  clientW : Nat := 0
  clientH : Nat := 0
  controlsUpdates : Nat := 0
  draws : Nat := 0
  recenters : Nat := 0
  disposedRobots : Nat := 0
  imports : List (String × String) := []
  events : List Event := []

/-- `redraw()`: mark the scene dirty. -/
def redraw (v : Viewer) : Viewer := { v with dirty := true }

/-- `_updateEnvironment()`: recompute the visual bounding box of the mounted
robot and derive the ground-plane height, the orbit-target height, and (when
shadows are displayed) the shadow camera extent and the light placement.  The
`world.updateMatrixWorld()` call only refreshes cached transforms of the
external engine; the world-space geometry boxes are data here. -/
def updateEnvironment (v : Viewer) : Viewer :=
  match v.robot with
  | none => v
  | some rb =>
      let bbox := visualBBox rb.tree
      if v.displayShadow then
        { v with targetY := centerY bbox, planeY := planeYOf bbox,
                 lightCastShadow := true,
                 shadowCamExtentSq := radiusSq bbox,
                 lightTargetPos := centerV bbox,
                 lightPos := addV (centerV bbox) (subV v.lightPos v.lightTargetPos) }
      else
        { v with targetY := centerY bbox, planeY := planeYOf bbox,
                 lightCastShadow := false }

/-- `recenter()`: `_updateEnvironment` followed by `redraw`, with the
instrumentation counter recording the call. -/
def recenter (v : Viewer) : Viewer :=
  let v1 := updateEnvironment v
  { v1 with dirty := true, recenters := v1.recenters + 1 }

/-- Whether `updateSize` sees a renderer size different from the element's
client size. -/
def sizeChanged (v : Viewer) : Prop :=
  v.rendererW ≠ v.clientW ∨ v.rendererH ≠ v.clientH

instance (v : Viewer) : Decidable (sizeChanged v) := by
  unfold sizeChanged; infer_instance

/-- `updateSize()`: recenter exactly when the renderer size differs from the
container size, then resize the renderer to the container.  (The camera
projection update touches only the external camera.) -/
def updateSizeStep (v : Viewer) : Viewer :=
  let v1 := if sizeChanged v then recenter v else v
  { v1 with rendererW := v.clientW, rendererH := v.clientH }

/-- One iteration of the render loop started by `startRenderLoop`.  When the
element has no parent node the callback only reschedules itself. -/
def tick (v : Viewer) : Viewer :=
  if v.attached then
    let v1 := updateSizeStep v
    let v2 :=
      if v1.dirty || v1.autoRedraw then
        let va := if !v1.noAutoRecenter then updateEnvironment v1 else v1
        { va with draws := va.draws + 1, dirty := false }
      else v1
    { v2 with controlsUpdates := v2.controlsUpdates + 1 }
  else v

/-- The string `` `${this.package}|${this.urdf}` `` compared against
`_prevload`. -/
def loadKey (v : Viewer) : String := v.pkgAttr ++ "|" ++ v.urdfAttr

/-- `_scheduleLoad()`: early-return if the package/urdf pair is unchanged;
record the new pair; early-return if a load is already scheduled; otherwise
mark a load scheduled, dispose and detach the mounted robot (if any), and
register the next-frame callback (modelled by the `loadScheduled` flag, fired
by `flushScheduled`). -/
def scheduleLoad (v : Viewer) : Viewer :=
  if v.prevload = some (loadKey v) then v
  else
    let v1 := { v with prevload := some (loadKey v) }
    if v1.loadScheduled then v1
    else
      let v2 := { v1 with loadScheduled := true }
      match v2.robot with
      | some _ => { v2 with robot := none, disposedRobots := v2.disposedRobots + 1 }
      | none => v2

/-- The start of `_loadUrdf(this.package, this.urdf)`: dispatch `urdf-change`
and, when the locator is non-empty, start an import with the attribute values
read at call time.  (The asynchronous completion is modelled separately by
`stepLoad`.) -/
def loadUrdfStart (v : Viewer) : Viewer :=
  let v1 := { v with events := v.events ++ [Event.urdfChange] }
  if v1.urdfAttr ≠ "" then
    { v1 with imports := v1.imports ++ [(v1.pkgAttr, v1.urdfAttr)] }
  else v1

/-- The `requestAnimationFrame` callback registered by `_scheduleLoad` firing:
run `_loadUrdf` with the current attribute values and clear `_loadScheduled`.
A callback is pending exactly when `loadScheduled` is set. -/
def flushScheduled (v : Viewer) : Viewer :=
  if v.loadScheduled then { loadUrdfStart v with loadScheduled := false }
  else v

/-- A sequence of synchronous attribute changes, each followed by the
`_scheduleLoad` reaction, all within one render-loop tick. -/
def runCalls (calls : List (String × String)) (v : Viewer) : Viewer :=
  calls.foldl (fun w c => scheduleLoad { w with pkgAttr := c.1, urdfAttr := c.2 }) v

/-- Replace the named joint's state in the robot's joint table. -/
def updateJoint (joints : List (String × JointState)) (name : String)
    (j : JointState) : List (String × JointState) :=
  joints.map (fun p => if p.1 = name then (p.1, j) else p)

/-- `setJointValue(jointName, ...values)` with the joint's value-setting
policy abstracted as `pol` (the policy itself lives on the joint object built
by `URDFLoader.js`): no-op without a robot or without the named joint;
otherwise apply the policy and, only when it reports a change, mark the scene
dirty and dispatch one `angle-change` event carrying the joint name. -/
def setJointValueWith (pol : JointState → ℚ → JointState × Bool) (v : Viewer)
    (name : String) (val : ℚ) : Viewer :=
  match v.robot with
  | none => v
  | some rb =>
      match List.lookup name rb.joints with
      | none => v
      | some j =>
          let res := pol j val
          let rb1 : Robot := { rb with joints := updateJoint rb.joints name res.1 }
          if res.2 then
            { v with robot := some rb1, dirty := true,
                     events := v.events ++ [Event.angleChange name] }
          else
            { v with robot := some rb1 }

/-- `setJointValue` with the spec-modelled joint policy. -/
def setJointValue (v : Viewer) (name : String) (val : ℚ) : Viewer :=
  setJointValueWith JointState.setJointValue v name val

/-- `_setIgnoreLimits(ignore, noRecenter)`: walk the robot's joints and, unless
`noRecenter`, recenter. -/
def setIgnoreLimits (flag : Bool) (noRecenter : Bool) (v : Viewer) : Viewer :=
  match v.robot with
  | none => v
  | some rb =>
      let v1 := { v with robot := some { rb with tree := setIgnoreLimitsTree flag rb.tree } }
      if noRecenter then v1 else recenter v1

/-- The resolved package specification handed to the loader: either a single
default path or a name-to-path table. -/
inductive PackageSpec where
  | single (path : String)
  | mapping (entries : List (String × String))
deriving DecidableEq, Repr

/-- JS `String.prototype.split` with a single-character separator, on the
character sequence of the string (`"".split(c)` gives `[""]`). -/
def jsSplitAux (sep : Char) : List Char → List Char → List (List Char)
  | acc, [] => [acc.reverse]
  | acc, x :: xs =>
      if x = sep then acc.reverse :: jsSplitAux sep [] xs
      else jsSplitAux sep (x :: acc) xs

/-- `s.split(sep)` for a one-character separator. -/
def jsSplit (sep : Char) (s : List Char) : List (List Char) := jsSplitAux sep [] s

/-- JS `String.prototype.includes` for a one-character needle. -/
def jsIncludes (c : Char) (s : List Char) : Bool := s.any (fun x => x = c)

/-- JS `String.prototype.trim`: strip whitespace from both ends. -/
def jsTrim (s : List Char) : List Char :=
  ((s.dropWhile Char.isWhitespace).reverse.dropWhile Char.isWhitespace).reverse

/-- One comma-separated segment of the package attribute:
`value.split(/:/).filter(x => !!x)`, first element (trimmed) as name, the
remaining elements re-joined with `:` (trimmed) as path.  `none` models the
JS `TypeError` raised when every colon-split piece is empty (`shift()` yields
`undefined`). -/
def parseSegment (value : List Char) : Option (String × String) :=
  match (jsSplit ':' value).filter (fun x => x ≠ []) with
  | [] => none
  | name :: rest =>
      some (String.mk (jsTrim name), String.mk (jsTrim (List.intercalate [':'] rest)))

/-- Insertion into the accumulated JS object `map[pkgName] = pkgPath`:
overwrite in place if the key exists, append otherwise. -/
def objInsert (m : List (String × String)) (kv : String × String) :
    List (String × String) :=
  if m.any (fun p => p.1 = kv.1) then
    m.map (fun p => if p.1 = kv.1 then kv else p)
  else m ++ [kv]

/-- The package parsing of `_loadUrdf`
(`pkg.includes(':') && pkg.split(':')[1].substring(0, 2) !== '//'`): if the
spec contains a colon and the piece between the first and second colon does
not begin with `//`, split on commas and reduce each segment into a
name-to-path table; otherwise use the string unchanged.  `none` models the JS
exception of `parseSegment`. -/
def parsePackages (pkg : String) : Option PackageSpec :=
  let s := pkg.data
  if jsIncludes ':' s && (((jsSplit ':' s).getD 1 []).take 2 ≠ ['/', '/']) then
    match (jsSplit ',' s).mapM parseSegment with
    | none => none
    | some entries => some (.mapping (entries.foldl objInsert []))
  else some (.single pkg)

/-- The load-orchestration state shared by `_loadUrdf` and its asynchronous
completion callbacks: the current counter `_requestId`, the `robot` field, the
models mounted under the `world` node, the models whose resources were
disposed, and the issued requests as (captured request id, model) pairs in
issue order. -/
structure LoadState where
  requestId : Nat
  robot : Option Nat
  world : List Nat
  disposed : List Nat
  requests : List (Nat × Nat)
deriving DecidableEq, Repr

/-- The initial orchestration state (`_requestId = 0`, nothing mounted). -/
def LoadState.init : LoadState := ⟨0, none, [], [], []⟩

/-- The orchestration events: an invocation of `_loadUrdf` with a non-empty
locator whose import will produce `modelId`, and the two completion callbacks
of the `k`-th issued request (`loader.load`'s success callback and
`manager.onLoad`). -/
inductive LoadEvent where
  | start (modelId : Nat)
  | loaderDone (k : Nat)
  | managerDone (k : Nat)

/-- `this.world.add(robot)`: re-adding a mounted child leaves the child set
unchanged. -/
def worldAdd (w : List Nat) (m : Nat) : List Nat := if m ∈ w then w else w ++ [m]

/-- One orchestration step.
`start`: `_loadUrdf` increments `_requestId` and captures it.
`loaderDone k`: the `loader.load` success callback assigns `this.robot` and
adds the model to the world, with no request-id comparison.
`managerDone k`: `manager.onLoad` compares the captured id with the current
counter, disposing the result when they differ and mounting it otherwise.
(Material, limit, collision and event bookkeeping of the mount paths is not
tracked here.) -/
def stepLoad (s : LoadState) : LoadEvent → LoadState
  | .start m =>
      { s with requestId := s.requestId + 1,
               requests := s.requests ++ [(s.requestId + 1, m)] }
  | .loaderDone k =>
      match s.requests.get? k with
      | some (_, m) => { s with robot := some m, world := worldAdd s.world m }
      | none => s
  | .managerDone k =>
      match s.requests.get? k with
      | some (rid, m) =>
          if s.requestId ≠ rid then { s with disposed := s.disposed ++ [m] }
          else { s with robot := some m, world := worldAdd s.world m }
      | none => s

/-- Run a completion-ordering scenario from the initial state. -/
def runLoad (evs : List LoadEvent) : LoadState := evs.foldl stepLoad .init

/-! Concrete scene-graph fragments and viewer states used to instantiate the
claims on explicit inputs. -/

/-- A childless robot consisting of a single plain link node. -/
def plainRobot : Robot := ⟨.mk {} .nil, []⟩

/-- A viewer in the window after `_scheduleLoad` has registered a next-frame
callback (`loadScheduled`) while a robot is mounted — reachable when an
asynchronous load completion mounts its model inside that window — and whose
package/urdf attributes differ from the recorded previous pair. -/
def vSched : Viewer :=
  { loadScheduled := true, robot := some plainRobot,
    prevload := some "oldpkg|old.urdf", pkgAttr := "pkg", urdfAttr := "robot.urdf" }

/-- A single visual node whose world-space geometry box is
`[(-1,0,-1),(1,2,1)]`, the box of the spec's `recenter` scenario. -/
def visualNode : Node :=
  .mk { isURDFVisual := true, geomBox := some ⟨⟨-1, 0, -1⟩, ⟨1, 2, 1⟩⟩ } .nil

/-- A viewer with the scenario robot mounted. -/
def vScenario : Viewer := { robot := some ⟨visualNode, []⟩ }

/-- A single collider node that is currently visible (the state colliders are
left in whenever the show-collision attribute was set at mount time). -/
def visibleCollider : Node := .mk { isURDFCollider := true, visible := true } .nil

/-- A hidden collider carrying a mesh child, the normal state of collision
geometry. -/
def hiddenColliderWithMesh : Node :=
  .mk { isURDFCollider := true, visible := false }
    (.cons (.mk { isMesh := true, material := 7 } .nil) .nil)

/-- A joint with limits `[-1, 1]`, currently settled at `0`. -/
def j1 : JointState :=
  { jointValue := 0, angle := 0, lower := -1, upper := 1, ignoreLimits := false }

/-- A robot with the single joint `"j1"`. -/
def jointedRobot : Robot := ⟨.mk { joint := some j1 } .nil, [("j1", j1)]⟩

/-- A viewer with the jointed robot mounted. -/
def vJointed : Viewer := { robot := some jointedRobot }

/-- A jointed tree whose single joint sits strictly inside its limits, in the
settled state a clamped set produces. -/
def settledJointTree : Node :=
  .mk { joint := some { jointValue := 1/2, angle := 1/2, lower := -1, upper := 1,
                        ignoreLimits := false } } .nil

/-- A viewer with no robot, not dirty, whose renderer already matches its
container. -/
def vIdle : Viewer := { clientW := 800, clientH := 600, rendererW := 800, rendererH := 600 }

/-- A viewer whose container was resized since the renderer was last sized. -/
def vResized : Viewer :=
  { clientW := 400, clientH := 300, rendererW := 800, rendererH := 600 }

/-! Structural lemmas about the collision-visibility passes. -/

mutual

theorem colliderVis_setCV (f : Bool) : ∀ r : Node,
    colliderVis (setColliderVis f r) = (colliderVis r).map (fun _ => f)
  | .mk d cs => by
      cases hc : d.isURDFCollider <;>
        simp [setColliderVis, colliderVis, hc, colliderVis_setCVL f cs]

theorem colliderVis_setCVL (f : Bool) : ∀ l : NodeList,
    colliderVisL (setColliderVisL f l) = (colliderVisL l).map (fun _ => f)
  | .nil => by simp [setColliderVisL, colliderVisL]
  | .cons h t => by
      simp [setColliderVisL, colliderVisL, colliderVis_setCV f h, colliderVis_setCVL f t]

end

mutual

theorem colliderVis_aCMP (u : Bool) : ∀ r : Node,
    colliderVis (applyCollMeshProps u r) = colliderVis r
  | .mk d cs => by
      rcases d with ⟨v1, c1, m1, vis, ray, cast, mat, box, jnt⟩
      cases u <;> cases c1 <;> cases m1 <;>
        simp [applyCollMeshProps, colliderVis, colliderVis_aCMPL true cs,
          colliderVis_aCMPL false cs]

theorem colliderVis_aCMPL (u : Bool) : ∀ l : NodeList,
    colliderVisL (applyCollMeshPropsL u l) = colliderVisL l
  | .nil => by simp [applyCollMeshPropsL, colliderVisL]
  | .cons h t => by
      simp [applyCollMeshPropsL, colliderVisL, colliderVis_aCMP u h, colliderVis_aCMPL u t]

end

mutual

theorem nonColliderVis_setCV (f : Bool) : ∀ r : Node,
    nonColliderVis (setColliderVis f r) = nonColliderVis r
  | .mk d cs => by
      cases hc : d.isURDFCollider <;>
        simp [setColliderVis, nonColliderVis, hc, nonColliderVis_setCVL f cs]

theorem nonColliderVis_setCVL (f : Bool) : ∀ l : NodeList,
    nonColliderVisL (setColliderVisL f l) = nonColliderVisL l
  | .nil => by simp [setColliderVisL, nonColliderVisL]
  | .cons h t => by
      simp [setColliderVisL, nonColliderVisL, nonColliderVis_setCV f h,
        nonColliderVis_setCVL f t]

end

mutual

theorem nonColliderVis_aCMP (u : Bool) : ∀ r : Node,
    nonColliderVis (applyCollMeshProps u r) = nonColliderVis r
  | .mk d cs => by
      rcases d with ⟨v1, c1, m1, vis, ray, cast, mat, box, jnt⟩
      cases u <;> cases c1 <;> cases m1 <;>
        simp [applyCollMeshProps, nonColliderVis, nonColliderVis_aCMPL true cs,
          nonColliderVis_aCMPL false cs]

theorem nonColliderVis_aCMPL (u : Bool) : ∀ l : NodeList,
    nonColliderVisL (applyCollMeshPropsL u l) = nonColliderVisL l
  | .nil => by simp [applyCollMeshPropsL, nonColliderVisL]
  | .cons h t => by
      simp [applyCollMeshPropsL, nonColliderVisL, nonColliderVis_aCMP u h,
        nonColliderVis_aCMPL u t]

end

mutual

theorem collMeshProps_setCV (f : Bool) (u : Bool) : ∀ r : Node,
    collMeshProps u (setColliderVis f r) = collMeshProps u r
  | .mk d cs => by
      rcases d with ⟨v1, c1, m1, vis, ray, cast, mat, box, jnt⟩
      cases u <;> cases c1 <;> cases m1 <;>
        simp [setColliderVis, collMeshProps, collMeshProps_setCVL f true cs,
          collMeshProps_setCVL f false cs]

theorem collMeshProps_setCVL (f : Bool) (u : Bool) : ∀ l : NodeList,
    collMeshPropsL u (setColliderVisL f l) = collMeshPropsL u l
  | .nil => by simp [setColliderVisL, collMeshPropsL]
  | .cons h t => by
      simp [setColliderVisL, collMeshPropsL, collMeshProps_setCV f u h,
        collMeshProps_setCVL f u t]

end

mutual

theorem collMeshProps_aCMP (u : Bool) : ∀ r : Node,
    collMeshProps u (applyCollMeshProps u r) =
      (collMeshProps u r).map (fun _ => (false, collisionMaterialId, false))
  | .mk d cs => by
      rcases d with ⟨v1, c1, m1, vis, ray, cast, mat, box, jnt⟩
      cases u <;> cases c1 <;> cases m1 <;>
        simp [applyCollMeshProps, collMeshProps, collMeshProps_aCMPL true cs,
          collMeshProps_aCMPL false cs]

theorem collMeshProps_aCMPL (u : Bool) : ∀ l : NodeList,
    collMeshPropsL u (applyCollMeshPropsL u l) =
      (collMeshPropsL u l).map (fun _ => (false, collisionMaterialId, false))
  | .nil => by simp [applyCollMeshPropsL, collMeshPropsL]
  | .cons h t => by
      simp [applyCollMeshPropsL, collMeshPropsL, collMeshProps_aCMP u h,
        collMeshProps_aCMPL u t]

end

mutual

theorem setCV_setCV (f g : Bool) : ∀ r : Node,
    setColliderVis f (setColliderVis g r) = setColliderVis f r
  | .mk d cs => by
      cases hc : d.isURDFCollider <;>
        simp [setColliderVis, hc, setCV_setCVL f g cs]

theorem setCV_setCVL (f g : Bool) : ∀ l : NodeList,
    setColliderVisL f (setColliderVisL g l) = setColliderVisL f l
  | .nil => by simp [setColliderVisL]
  | .cons h t => by simp [setColliderVisL, setCV_setCV f g h, setCV_setCVL f g t]

end

mutual

theorem aCMP_aCMP (u : Bool) : ∀ r : Node,
    applyCollMeshProps u (applyCollMeshProps u r) = applyCollMeshProps u r
  | .mk d cs => by
      rcases d with ⟨v1, c1, m1, vis, ray, cast, mat, box, jnt⟩
      cases u <;> cases c1 <;> cases m1 <;>
        simp [applyCollMeshProps, aCMP_aCMPL true cs, aCMP_aCMPL false cs]

theorem aCMP_aCMPL (u : Bool) : ∀ l : NodeList,
    applyCollMeshPropsL u (applyCollMeshPropsL u l) = applyCollMeshPropsL u l
  | .nil => by simp [applyCollMeshPropsL]
  | .cons h t => by simp [applyCollMeshPropsL, aCMP_aCMP u h, aCMP_aCMPL u t]

end

mutual

theorem setCV_aCMP_comm (f : Bool) (u : Bool) : ∀ r : Node,
    setColliderVis f (applyCollMeshProps u r) =
      applyCollMeshProps u (setColliderVis f r)
  | .mk d cs => by
      rcases d with ⟨v1, c1, m1, vis, ray, cast, mat, box, jnt⟩
      cases u <;> cases c1 <;> cases m1 <;>
        simp [setColliderVis, applyCollMeshProps, setCV_aCMP_commL f true cs,
          setCV_aCMP_commL f false cs]

theorem setCV_aCMP_commL (f : Bool) (u : Bool) : ∀ l : NodeList,
    setColliderVisL f (applyCollMeshPropsL u l) =
      applyCollMeshPropsL u (setColliderVisL f l)
  | .nil => by simp [setColliderVisL, applyCollMeshPropsL]
  | .cons h t => by
      simp [setColliderVisL, applyCollMeshPropsL, setCV_aCMP_comm f u h,
        setCV_aCMP_commL f u t]

end

/-! The joint-limit toggle round trip. -/

/-- The per-joint hypothesis of the round trip: limits not currently ignored,
requested value within limits, and the joint settled at the value a clamped
set produces. -/
def SettledInLimits (j : JointState) : Prop :=
  j.ignoreLimits = false ∧ j.lower ≤ j.jointValue ∧ j.jointValue ≤ j.upper ∧
    j.angle = j.jointValue

instance (j : JointState) : Decidable (SettledInLimits j) := by
  unfold SettledInLimits; infer_instance

mutual

theorem setIL_roundtrip : ∀ r : Node, (∀ j ∈ jointsOf r, SettledInLimits j) →
    setIgnoreLimitsTree false (setIgnoreLimitsTree true r) = r
  | .mk d cs, h => by
      rcases hd : d.joint with _ | j
      · have hcs : ∀ j ∈ jointsOfL cs, SettledInLimits j := by
          intro j hj
          exact h j (by simp [jointsOf, hd, hj])
        simp [setIgnoreLimitsTree, hd, setIL_roundtripL cs hcs]
      · have hcs : ∀ j2 ∈ jointsOfL cs, SettledInLimits j2 := by
          intro j2 hj2
          exact h j2 (by simp [jointsOf, hd, hj2])
        have hj : SettledInLimits j := h j (by simp [jointsOf, hd])
        obtain ⟨hil, hlo, hup, hang⟩ := hj
        rcases j with ⟨jv, a, lo, hi, il⟩
        simp only at hil hlo hup hang
        subst hil hang
        simp [setIgnoreLimitsTree, hd, JointState.setJointValue,
          setIL_roundtripL cs hcs, min_eq_right hup, max_eq_right hlo]
        rw [← hd]

theorem setIL_roundtripL : ∀ l : NodeList, (∀ j ∈ jointsOfL l, SettledInLimits j) →
    setIgnoreLimitsTreeL false (setIgnoreLimitsTreeL true l) = l
  | .nil, _ => by simp [setIgnoreLimitsTreeL]
  | .cons hd tl, h => by
      have h1 : ∀ j ∈ jointsOf hd, SettledInLimits j := by
        intro j hj
        exact h j (by simp [jointsOfL, hj])
      have h2 : ∀ j ∈ jointsOfL tl, SettledInLimits j := by
        intro j hj
        exact h j (by simp [jointsOfL, hj])
      simp [setIgnoreLimitsTreeL, setIL_roundtrip hd h1, setIL_roundtripL tl h2]

end

/-! Projection lemmas for the framing and render-loop operations. -/

@[simp] theorem ue_dirty (v : Viewer) : (updateEnvironment v).dirty = v.dirty := by
  unfold updateEnvironment
  rcases h : v.robot with _ | rb
  · simp [h]
  · simp only [h]
    split <;> rfl

@[simp] theorem ue_draws (v : Viewer) : (updateEnvironment v).draws = v.draws := by
  unfold updateEnvironment
  rcases h : v.robot with _ | rb
  · simp [h]
  · simp only [h]
    split <;> rfl

@[simp] theorem ue_recenters (v : Viewer) : (updateEnvironment v).recenters = v.recenters := by
  unfold updateEnvironment
  rcases h : v.robot with _ | rb
  · simp [h]
  · simp only [h]
    split <;> rfl

@[simp] theorem ue_controlsUpdates (v : Viewer) :
    (updateEnvironment v).controlsUpdates = v.controlsUpdates := by
  unfold updateEnvironment
  rcases h : v.robot with _ | rb
  · simp [h]
  · simp only [h]
    split <;> rfl

@[simp] theorem ue_rendererW (v : Viewer) : (updateEnvironment v).rendererW = v.rendererW := by
  unfold updateEnvironment
  rcases h : v.robot with _ | rb
  · simp [h]
  · simp only [h]
    split <;> rfl

@[simp] theorem ue_rendererH (v : Viewer) : (updateEnvironment v).rendererH = v.rendererH := by
  unfold updateEnvironment
  rcases h : v.robot with _ | rb
  · simp [h]
  · simp only [h]
    split <;> rfl

@[simp] theorem ue_clientW (v : Viewer) : (updateEnvironment v).clientW = v.clientW := by
  unfold updateEnvironment
  rcases h : v.robot with _ | rb
  · simp [h]
  · simp only [h]
    split <;> rfl

@[simp] theorem ue_clientH (v : Viewer) : (updateEnvironment v).clientH = v.clientH := by
  unfold updateEnvironment
  rcases h : v.robot with _ | rb
  · simp [h]
  · simp only [h]
    split <;> rfl

@[simp] theorem ue_autoRedraw (v : Viewer) : (updateEnvironment v).autoRedraw = v.autoRedraw := by
  unfold updateEnvironment
  rcases h : v.robot with _ | rb
  · simp [h]
  · simp only [h]
    split <;> rfl

@[simp] theorem ue_noAutoRecenter (v : Viewer) :
    (updateEnvironment v).noAutoRecenter = v.noAutoRecenter := by
  unfold updateEnvironment
  rcases h : v.robot with _ | rb
  · simp [h]
  · simp only [h]
    split <;> rfl

@[simp] theorem ue_attached (v : Viewer) : (updateEnvironment v).attached = v.attached := by
  unfold updateEnvironment
  rcases h : v.robot with _ | rb
  · simp [h]
  · simp only [h]
    split <;> rfl

@[simp] theorem ue_robot (v : Viewer) : (updateEnvironment v).robot = v.robot := by
  unfold updateEnvironment
  rcases h : v.robot with _ | rb
  · simp [h]
  · simp only [h]
    split <;> rfl

@[simp] theorem ue_events (v : Viewer) : (updateEnvironment v).events = v.events := by
  unfold updateEnvironment
  rcases h : v.robot with _ | rb
  · simp [h]
  · simp only [h]
    split <;> rfl

@[simp] theorem ue_imports (v : Viewer) : (updateEnvironment v).imports = v.imports := by
  unfold updateEnvironment
  rcases h : v.robot with _ | rb
  · simp [h]
  · simp only [h]
    split <;> rfl

/-- With no robot mounted, `_updateEnvironment` is the identity. -/
theorem updateEnvironment_none (v : Viewer) (h : v.robot = none) :
    updateEnvironment v = v := by
  unfold updateEnvironment
  rw [h]

@[simp] theorem recenter_dirty (v : Viewer) : (recenter v).dirty = true := by
  simp [recenter]

@[simp] theorem recenter_draws (v : Viewer) : (recenter v).draws = v.draws := by
  simp [recenter]

@[simp] theorem recenter_recenters (v : Viewer) :
    (recenter v).recenters = v.recenters + 1 := by
  simp [recenter]

@[simp] theorem recenter_controlsUpdates (v : Viewer) :
    (recenter v).controlsUpdates = v.controlsUpdates := by
  simp [recenter]

@[simp] theorem recenter_rendererW (v : Viewer) : (recenter v).rendererW = v.rendererW := by
  simp [recenter]

@[simp] theorem recenter_rendererH (v : Viewer) : (recenter v).rendererH = v.rendererH := by
  simp [recenter]

@[simp] theorem recenter_clientW (v : Viewer) : (recenter v).clientW = v.clientW := by
  simp [recenter]

@[simp] theorem recenter_clientH (v : Viewer) : (recenter v).clientH = v.clientH := by
  simp [recenter]

@[simp] theorem recenter_autoRedraw (v : Viewer) : (recenter v).autoRedraw = v.autoRedraw := by
  simp [recenter]

@[simp] theorem recenter_noAutoRecenter (v : Viewer) :
    (recenter v).noAutoRecenter = v.noAutoRecenter := by
  simp [recenter]

@[simp] theorem recenter_attached (v : Viewer) : (recenter v).attached = v.attached := by
  simp [recenter]

@[simp] theorem recenter_robot (v : Viewer) : (recenter v).robot = v.robot := by
  simp [recenter]

@[simp] theorem uss_rendererW (v : Viewer) : (updateSizeStep v).rendererW = v.clientW := by
  unfold updateSizeStep
  split <;> simp

@[simp] theorem uss_rendererH (v : Viewer) : (updateSizeStep v).rendererH = v.clientH := by
  unfold updateSizeStep
  split <;> simp

@[simp] theorem uss_clientW (v : Viewer) : (updateSizeStep v).clientW = v.clientW := by
  unfold updateSizeStep
  split <;> simp

@[simp] theorem uss_clientH (v : Viewer) : (updateSizeStep v).clientH = v.clientH := by
  unfold updateSizeStep
  split <;> simp

@[simp] theorem uss_draws (v : Viewer) : (updateSizeStep v).draws = v.draws := by
  unfold updateSizeStep
  split <;> simp

@[simp] theorem uss_controlsUpdates (v : Viewer) :
    (updateSizeStep v).controlsUpdates = v.controlsUpdates := by
  unfold updateSizeStep
  split <;> simp

@[simp] theorem uss_autoRedraw (v : Viewer) : (updateSizeStep v).autoRedraw = v.autoRedraw := by
  unfold updateSizeStep
  split <;> simp

@[simp] theorem uss_noAutoRecenter (v : Viewer) :
    (updateSizeStep v).noAutoRecenter = v.noAutoRecenter := by
  unfold updateSizeStep
  split <;> simp

@[simp] theorem uss_attached (v : Viewer) : (updateSizeStep v).attached = v.attached := by
  unfold updateSizeStep
  split <;> simp

theorem uss_recenters (v : Viewer) :
    (updateSizeStep v).recenters = v.recenters + (if sizeChanged v then 1 else 0) := by
  unfold updateSizeStep
  split <;> rename_i hsc <;> simp [hsc]

theorem uss_dirty (v : Viewer) :
    (updateSizeStep v).dirty = (v.dirty || decide (sizeChanged v)) := by
  unfold updateSizeStep
  split <;> rename_i hsc <;> simp [hsc]

/-- `_scheduleLoad` never starts an import itself. -/
theorem scheduleLoad_imports (v : Viewer) : (scheduleLoad v).imports = v.imports := by
  unfold scheduleLoad
  dsimp only
  split
  · rfl
  · split
    · rfl
    · split <;> rfl

/-! The claims. -/

/-- C1: the sequence-id invariant fails on the code.  With two loads issued
(models 100 and 200, captured ids 1 and 2) and completions delivered in issue
order, the first request's `loader.load` success callback mounts model 100
under the world although its captured id 1 differs from the current counter 2
(that callback performs no sequence-id comparison), and model 100 is still
mounted under the world at the end of the run — only its resources were
disposed by the later `manager.onLoad` guard, which never removes it from the
scene. -/
theorem claim_C1_stale_mount :
    (runLoad [.start 100, .start 200, .loaderDone 0]).requestId = 2 ∧
    (runLoad [.start 100, .start 200, .loaderDone 0]).robot = some 100 ∧
    (runLoad [.start 100, .start 200, .loaderDone 0]).world = [100] ∧
    (runLoad [.start 100, .start 200, .loaderDone 0]).disposed = [] ∧
    (runLoad [.start 100, .start 200, .loaderDone 0, .managerDone 0,
        .loaderDone 1, .managerDone 1]).world = [100, 200] ∧
    (runLoad [.start 100, .start 200, .loaderDone 0, .managerDone 0,
        .loaderDone 1, .managerDone 1]).disposed = [100] := by
  decide

/-- C4 counterexample: a collider that is visible before the calls (the state
`show-collision` at mount time leaves it in) ends up hidden after
`applyCollisionVisibility(true)` then `applyCollisionVisibility(false)`, so
its visibility is not restored. -/
theorem claim_C4_counterexample :
    colliderVis (updateCollisionVisibility false
        (updateCollisionVisibility true visibleCollider)) = [false] ∧
    colliderVis visibleCollider = [true] ∧
    colliderVis (updateCollisionVisibility false
        (updateCollisionVisibility true visibleCollider)) ≠
      colliderVis visibleCollider := by
  refine ⟨by decide, by decide, by decide⟩

/-- C4 (amended): for a mounted model all of whose collider nodes are hidden
(the normal state of collision geometry), `applyCollisionVisibility(true)`
followed by `applyCollisionVisibility(false)` leaves every collider node's
visibility equal to its value before the first call; each call sets every
collider node's visibility to the flag directly, so the round trip restores
exactly the visibilities that were `false` beforehand. -/
theorem claim_C4_collision_roundtrip (r : Node)
    (h : ∀ b ∈ colliderVis r, b = false) :
    colliderVis (updateCollisionVisibility false (updateCollisionVisibility true r)) =
      colliderVis r := by
  unfold updateCollisionVisibility
  rw [colliderVis_aCMP, colliderVis_setCV, colliderVis_aCMP, colliderVis_setCV]
  simp only [List.map_map]
  have : ∀ l : List Bool, (∀ b ∈ l, b = false) → l.map (fun _ => false) = l := by
    intro l hl
    induction l with
    | nil => rfl
    | cons a t ih =>
        simp only [List.map_cons, List.cons.injEq]
        exact ⟨(hl a (by simp)).symm, ih fun b hb => hl b (by simp [hb])⟩
  exact this (colliderVis r) h

/-- C4 witness: the round trip applied to a hidden collider carrying a mesh. -/
theorem claim_C4_collision_roundtrip_witness :
    colliderVis (updateCollisionVisibility false
        (updateCollisionVisibility true hiddenColliderWithMesh)) =
      colliderVis hiddenColliderWithMesh :=
  claim_C4_collision_roundtrip hiddenColliderWithMesh (by decide)

/-- C7 counterexample: with no model mounted and the dirty flag clear,
`recenter()` still marks the scene dirty (it unconditionally calls
`redraw()`), so the viewer state is not left unchanged. -/
theorem claim_C7_counterexample :
    vIdle.robot = none ∧ vIdle.dirty = false ∧ (recenter vIdle).dirty = true :=
  ⟨rfl, rfl, rfl⟩

/-- C7 (amended): when no model is mounted, `recenter()` leaves the ground
plane, the camera target, the directional light and all other viewer state
unchanged except that it sets the dirty flag (scheduling a redraw of the
empty scene); the recenter instrumentation counter also advances. -/
theorem claim_C7_recenter_no_robot (v : Viewer) (h : v.robot = none) :
    recenter v = { v with dirty := true, recenters := v.recenters + 1 } := by
  unfold recenter
  rw [updateEnvironment_none v h]

/-- C7 witness: the amended statement at the idle viewer. -/
theorem claim_C7_recenter_no_robot_witness :
    recenter vIdle = { vIdle with dirty := true, recenters := vIdle.recenters + 1 } :=
  claim_C7_recenter_no_robot vIdle rfl

/-- C9: toggling `applyIgnoreLimits(true)` then `applyIgnoreLimits(false)`
with no intervening `setJointValue` is the identity on the mounted model
whenever every joint is settled within its limits, so each joint's effective
value equals what it would be had the flag never been toggled (the value a
direct clamped set produces).  Each call walks every joint node, sets its
limit-ignoring policy and re-applies its current value under the new
policy. -/
theorem claim_C9_ignoreLimits_roundtrip (r : Node)
    (h : ∀ j ∈ jointsOf r, SettledInLimits j) :
    setIgnoreLimitsTree false (setIgnoreLimitsTree true r) = r :=
  setIL_roundtrip r h

/-- C9 witness: the round trip at a joint settled at `1/2` inside `[-1, 1]`. -/
theorem claim_C9_ignoreLimits_roundtrip_witness :
    setIgnoreLimitsTree false (setIgnoreLimitsTree true settledJointTree) =
      settledJointTree :=
  claim_C9_ignoreLimits_roundtrip settledJointTree (by
    intro j hj
    simp only [settledJointTree, jointsOf, jointsOfL, List.append_nil,
      List.mem_singleton] at hj
    subst hj
    exact ⟨rfl, by norm_num, by norm_num, rfl⟩)

/-- C10: every invocation of the collision-visibility update, for either flag
value, leaves every mesh beneath a collider with ray-picking disabled, the
shared collision material, and shadow casting disabled; every collider's
visibility is set to the flag and no other node's visibility changes; and a
later call with flag `false` reverts none of the three mesh changes (the
second call subsumes the first: only the collider visibilities differ, and
they differ only by the flag). -/
theorem claim_C10_collision_invariants :
    (∀ (flag : Bool) (r : Node) (p : Bool × Nat × Bool),
        p ∈ collMeshProps false (updateCollisionVisibility flag r) →
        p = (false, collisionMaterialId, false)) ∧
    (∀ (flag : Bool) (r : Node),
        colliderVis (updateCollisionVisibility flag r) =
          (colliderVis r).map (fun _ => flag)) ∧
    (∀ (flag : Bool) (r : Node),
        nonColliderVis (updateCollisionVisibility flag r) = nonColliderVis r) ∧
    (∀ (f1 f2 : Bool) (r : Node),
        updateCollisionVisibility f2 (updateCollisionVisibility f1 r) =
          updateCollisionVisibility f2 r) := by
  refine ⟨?_, ?_, ?_, ?_⟩
  · intro flag r p hp
    unfold updateCollisionVisibility at hp
    rw [collMeshProps_aCMP] at hp
    obtain ⟨q, _, hq⟩ := List.mem_map.mp hp
    exact hq.symm
  · intro flag r
    unfold updateCollisionVisibility
    rw [colliderVis_aCMP, colliderVis_setCV]
  · intro flag r
    unfold updateCollisionVisibility
    rw [nonColliderVis_aCMP, nonColliderVis_setCV]
  · intro f1 f2 r
    unfold updateCollisionVisibility
    rw [setCV_aCMP_comm, aCMP_aCMP, setCV_setCV]

/-- C10 witness: the mesh inside a collider after an update with flag `false`
carries exactly the three mesh changes, instantiating the quantified part at
an explicit model. -/
theorem claim_C10_collision_invariants_witness :
    (false, 1, false) = ((false, collisionMaterialId, false) : Bool × Nat × Bool) :=
  claim_C10_collision_invariants.1 false hiddenColliderWithMesh (false, 1, false)
    (by decide)

/-- C3 counterexample: for the spec's scenario box `[(-1,0,-1),(1,2,1)]` the
minimum y is `0`, so `recenter` puts the ground plane at `0 - 1e-3 = -1e-3`,
not at `-1 - 1e-3` as the claim states (the camera-target half of the
scenario, `1`, does hold). -/
theorem claim_C3_counterexample :
    (recenter vScenario).targetY = 1 ∧
    (recenter vScenario).planeY = ((-1/1000 : ℚ) : WithTop ℚ) ∧
    ((-1/1000 : ℚ) : WithTop ℚ) ≠ ((-1 - 1/1000 : ℚ) : WithTop ℚ) := by
  refine ⟨?_, ?_, ?_⟩
  · norm_num [recenter, updateEnvironment, vScenario, visualNode, visualBBox,
      visualBBoxL, subtreeBox, subtreeBoxL, unionBox, centerY]
  · norm_num [recenter, updateEnvironment, vScenario, visualNode, visualBBox,
      visualBBoxL, subtreeBox, subtreeBoxL, unionBox, planeYOf]
  · simp only [ne_eq, WithTop.coe_eq_coe]
    norm_num

/-- C3 (amended): for every mounted model whose visual (non-collision)
world-space bounding box is `b`, `recenter` sets the ground-plane y to
`b.min.y - 1e-3` and the camera-manipulation target y to the box's center y;
for the scenario box `[(-1,0,-1),(1,2,1)]` this gives plane y `-1e-3`
(that box's minimum y is `0`) and target y `1`. -/
theorem claim_C3_recenter (v : Viewer) (rb : Robot) (b : BoxNE)
    (h1 : v.robot = some rb) (h2 : visualBBox rb.tree = some b) :
    (recenter v).planeY = ((b.bmin.y - 1/1000 : ℚ) : WithTop ℚ) ∧
    (recenter v).targetY = (b.bmin.y + b.bmax.y) / 2 := by
  have hue : (updateEnvironment v).planeY = planeYOf (visualBBox rb.tree) ∧
      (updateEnvironment v).targetY = centerY (visualBBox rb.tree) := by
    unfold updateEnvironment
    rw [h1]
    dsimp only
    split <;> exact ⟨rfl, rfl⟩
  have hp : (recenter v).planeY = (updateEnvironment v).planeY := by simp [recenter]
  have ht : (recenter v).targetY = (updateEnvironment v).targetY := by simp [recenter]
  constructor
  · rw [hp, hue.1, h2]
    rfl
  · rw [ht, hue.2, h2]
    rfl

/-- C3 witness: the amended statement at the scenario viewer. -/
theorem claim_C3_recenter_witness :
    (recenter vScenario).planeY = (((0 : ℚ) - 1/1000 : ℚ) : WithTop ℚ) ∧
    (recenter vScenario).targetY = ((0 : ℚ) + 2) / 2 :=
  claim_C3_recenter vScenario ⟨visualNode, []⟩ ⟨⟨-1, 0, -1⟩, ⟨1, 2, 1⟩⟩ rfl rfl

/-- C5 counterexample: the scenario package spec resolves to the literal
name-to-path table `{base: "/models/base", arm: "/models/arm"}`, not to the
`{base: "/models/arm/../base", arm: "/models/arm"}` stated by the spec's
scenario. -/
theorem claim_C5_counterexample :
    parsePackages "base:/models/base,arm:/models/arm" =
      some (.mapping [("base", "/models/base"), ("arm", "/models/arm")]) ∧
    parsePackages "base:/models/base,arm:/models/arm" ≠
      some (.mapping [("base", "/models/arm/../base"), ("arm", "/models/arm")]) := by
  constructor
  · decide
  · decide

/-- C5 (amended): if the package spec contains a colon and the piece after
the first colon does not begin with `//`, it is parsed into a name-to-path
table by splitting each comma-separated segment on colons, dropping empty
pieces, taking the first piece (trimmed) as the name and the remaining pieces
re-joined with `:` (trimmed) as the path; otherwise the string is used
unchanged as a single default path.  The scenario spec resolves to
`{base: "/models/base", arm: "/models/arm"}`. -/
theorem claim_C5_package_resolution :
    parsePackages "base:/models/base,arm:/models/arm" =
      some (.mapping [("base", "/models/base"), ("arm", "/models/arm")]) ∧
    (∀ s : String, jsIncludes ':' s.data = false →
      parsePackages s = some (.single s)) ∧
    parsePackages "http://models" = some (.single "http://models") ∧
    parsePackages "a: x ,a:y" = some (.mapping [("a", "y")]) := by
  refine ⟨by decide, ?_, by decide, by decide⟩
  intro s h
  unfold parsePackages
  simp [h]

/-- C5 witness: a colon-free package spec is used unchanged. -/
theorem claim_C5_package_resolution_witness :
    jsIncludes ':' ("plainpath" : String).data = false ∧
    parsePackages "plainpath" = some (.single "plainpath") :=
  ⟨by decide, claim_C5_package_resolution.2.1 "plainpath" (by decide)⟩

/-- C2 counterexample: in the reachable state where a next-frame load is
already scheduled (`_loadScheduled`) and a robot is mounted (an asynchronous
completion can mount one inside that window), a `scheduleLoad` with a changed
package/urdf pair returns at the `_loadScheduled` guard and neither detaches
nor disposes the mounted model. -/
theorem claim_C2_counterexample :
    vSched.prevload ≠ some (loadKey vSched) ∧
    vSched.robot = some plainRobot ∧
    (scheduleLoad vSched).robot = some plainRobot ∧
    (scheduleLoad vSched).disposedRobots = vSched.disposedRobots := by
  exact ⟨by decide, rfl, rfl, rfl⟩

/-- C2 (amended): `scheduleLoad` is an idempotent no-op when the
package/urdf pair is unchanged; when the pair changed and no load is
scheduled yet it immediately detaches and disposes the mounted model (if
any), marks a load scheduled and starts no import; when a load is already
scheduled it only records the new pair, leaving the mounted model in place;
no sequence of synchronous calls starts an import within the tick, and the
single pending next-frame callback starts exactly one import, with the
attribute values current when it fires. -/
theorem claim_C2_scheduleLoad :
    (∀ v : Viewer, v.prevload = some (loadKey v) → scheduleLoad v = v) ∧
    (∀ v : Viewer, v.prevload ≠ some (loadKey v) → v.loadScheduled = false →
      (scheduleLoad v).robot = none ∧ (scheduleLoad v).loadScheduled = true ∧
      (scheduleLoad v).disposedRobots =
        v.disposedRobots + (if v.robot.isSome then 1 else 0)) ∧
    (∀ v : Viewer, v.loadScheduled = true →
      (scheduleLoad v).robot = v.robot ∧ (scheduleLoad v).loadScheduled = true ∧
      (scheduleLoad v).disposedRobots = v.disposedRobots) ∧
    (∀ (calls : List (String × String)) (v : Viewer),
      (runCalls calls v).imports = v.imports) ∧
    (∀ v : Viewer, v.loadScheduled = true → v.urdfAttr ≠ "" →
      (flushScheduled v).imports = v.imports ++ [(v.pkgAttr, v.urdfAttr)] ∧
      (flushScheduled v).loadScheduled = false ∧
      (flushScheduled v).events = v.events ++ [Event.urdfChange]) := by
  refine ⟨?_, ?_, ?_, ?_, ?_⟩
  · intro v h
    unfold scheduleLoad
    rw [if_pos h]
  · intro v h1 h2
    unfold scheduleLoad
    rw [if_neg h1]
    dsimp only
    rw [h2]
    rcases hr : v.robot with _ | rb <;> simp [hr]
  · intro v h
    by_cases hk : v.prevload = some (loadKey v)
    · unfold scheduleLoad
      rw [if_pos hk]
      exact ⟨rfl, h, rfl⟩
    · unfold scheduleLoad
      rw [if_neg hk]
      dsimp only
      rw [h]
      simp
  · intro calls
    induction calls with
    | nil => intro v; rfl
    | cons c cs ih =>
        intro v
        have : (runCalls (c :: cs) v) =
            runCalls cs (scheduleLoad { v with pkgAttr := c.1, urdfAttr := c.2 }) := rfl
        rw [this, ih, scheduleLoad_imports]
  · intro v h1 h2
    unfold flushScheduled loadUrdfStart
    rw [h1]
    simp [h2]

/-- C2 witness: the amended statement at explicit viewer states. -/
theorem claim_C2_scheduleLoad_witness :
    scheduleLoad { prevload := some "|" } = ({ prevload := some "|" } : Viewer) ∧
    ((scheduleLoad vIdle).robot = none ∧ (scheduleLoad vIdle).loadScheduled = true ∧
      (scheduleLoad vIdle).disposedRobots =
        vIdle.disposedRobots + (if vIdle.robot.isSome then 1 else 0)) ∧
    ((scheduleLoad vSched).robot = vSched.robot ∧
      (scheduleLoad vSched).loadScheduled = true ∧
      (scheduleLoad vSched).disposedRobots = vSched.disposedRobots) ∧
    (runCalls [("a", "r1.urdf"), ("b", "r2.urdf")] vIdle).imports = vIdle.imports ∧
    ((flushScheduled vSched).imports =
        vSched.imports ++ [(vSched.pkgAttr, vSched.urdfAttr)] ∧
      (flushScheduled vSched).loadScheduled = false ∧
      (flushScheduled vSched).events = vSched.events ++ [Event.urdfChange]) :=
  ⟨claim_C2_scheduleLoad.1 { prevload := some "|" } rfl,
   claim_C2_scheduleLoad.2.1 vIdle (by decide) rfl,
   claim_C2_scheduleLoad.2.2.1 vSched rfl,
   claim_C2_scheduleLoad.2.2.2.1 [("a", "r1.urdf"), ("b", "r2.urdf")] vIdle,
   claim_C2_scheduleLoad.2.2.2.2 vSched rfl (by decide)⟩

/-- C6: `setJointValue` is a no-op when no model is mounted or the named
joint does not exist; when the joint's value-setting policy reports a change
it marks the scene dirty and dispatches exactly one `angle-change` event
carrying the joint name; when the policy reports no change it neither marks
the scene dirty nor dispatches anything. -/
theorem claim_C6_setJointValue (pol : JointState → ℚ → JointState × Bool)
    (v : Viewer) (name : String) (val : ℚ) :
    (v.robot = none → setJointValueWith pol v name val = v) ∧
    (∀ rb : Robot, v.robot = some rb → List.lookup name rb.joints = none →
      setJointValueWith pol v name val = v) ∧
    (∀ (rb : Robot) (j : JointState), v.robot = some rb →
      List.lookup name rb.joints = some j →
      ((pol j val).2 = true →
        (setJointValueWith pol v name val).dirty = true ∧
        (setJointValueWith pol v name val).events =
          v.events ++ [Event.angleChange name]) ∧
      ((pol j val).2 = false →
        (setJointValueWith pol v name val).dirty = v.dirty ∧
        (setJointValueWith pol v name val).events = v.events)) := by
  refine ⟨?_, ?_, ?_⟩
  · intro h
    unfold setJointValueWith
    rw [h]
  · intro rb h1 h2
    unfold setJointValueWith
    rw [h1]
    dsimp only
    rw [h2]
  · intro rb j h1 h2
    constructor
    · intro hc
      unfold setJointValueWith
      rw [h1]
      dsimp only
      rw [h2]
      simp [hc]
    · intro hc
      unfold setJointValueWith
      rw [h1]
      dsimp only
      rw [h2]
      simp [hc]

/-- C6 witness: the three cases at explicit states — no robot mounted; a
changing set on joint `"j1"`; a repeated set reporting no change. -/
theorem claim_C6_setJointValue_witness :
    setJointValueWith JointState.setJointValue vIdle "j1" 1 = vIdle ∧
    ((setJointValueWith JointState.setJointValue vJointed "j1" 1).dirty = true ∧
      (setJointValueWith JointState.setJointValue vJointed "j1" 1).events =
        vJointed.events ++ [Event.angleChange "j1"]) ∧
    ((setJointValueWith JointState.setJointValue vJointed "j1" 0).dirty =
        vJointed.dirty ∧
      (setJointValueWith JointState.setJointValue vJointed "j1" 0).events =
        vJointed.events) :=
  ⟨(claim_C6_setJointValue JointState.setJointValue vIdle "j1" 1).1 rfl,
   ((claim_C6_setJointValue JointState.setJointValue vJointed "j1" 1).2.2
      jointedRobot j1 rfl rfl).1
     (by norm_num [JointState.setJointValue, j1]),
   ((claim_C6_setJointValue JointState.setJointValue vJointed "j1" 0).2.2
      jointedRobot j1 rfl rfl).2
     (by norm_num [JointState.setJointValue, j1])⟩

/-- C8: on a tick with the element attached, the renderer is resized to the
container, a recenter happens exactly when the size changed, a draw happens
exactly when the dirty flag (as left by the resize step) is set or
continuous-redraw is configured, the dirty flag is cleared after a draw (and
only carries over unset when no draw happened), and the camera-manipulation
controller is advanced regardless. -/
theorem claim_C8_tick (v : Viewer) (h : v.attached = true) :
    (tick v).rendererW = v.clientW ∧
    (tick v).rendererH = v.clientH ∧
    (tick v).recenters = v.recenters + (if sizeChanged v then 1 else 0) ∧
    (updateSizeStep v).dirty = (v.dirty || decide (sizeChanged v)) ∧
    ((tick v).draws = v.draws + 1 ↔
      ((updateSizeStep v).dirty || v.autoRedraw) = true) ∧
    (((updateSizeStep v).dirty || v.autoRedraw) = false →
      (tick v).draws = v.draws) ∧
    (((updateSizeStep v).dirty || v.autoRedraw) = true → (tick v).dirty = false) ∧
    (((updateSizeStep v).dirty || v.autoRedraw) = false →
      (tick v).dirty = (updateSizeStep v).dirty) ∧
    (tick v).controlsUpdates = v.controlsUpdates + 1 := by
  by_cases hdraw : ((updateSizeStep v).dirty || v.autoRedraw) = true <;>
    [skip; rw [Bool.not_eq_true] at hdraw] <;>
    by_cases hna : v.noAutoRecenter = true <;>
    [skip; rw [Bool.not_eq_true] at hna; skip; rw [Bool.not_eq_true] at hna] <;>
    refine ⟨?_, ?_, ?_, uss_dirty v, ?_, ?_, ?_, ?_, ?_⟩ <;>
    simp [tick, h, hdraw, hna, uss_recenters]

/-- C8 witness: a tick at a viewer whose container size changed resizes the
renderer, recenters once, draws once, clears the dirty flag and advances the
controller. -/
theorem claim_C8_tick_witness :
    (tick vResized).rendererW = vResized.clientW ∧
    (tick vResized).rendererH = vResized.clientH ∧
    (tick vResized).recenters = vResized.recenters + 1 ∧
    (tick vResized).draws = vResized.draws + 1 ∧
    (tick vResized).dirty = false ∧
    (tick vResized).controlsUpdates = vResized.controlsUpdates + 1 := by
  obtain ⟨h1, h2, h3, _, h5, _, h7, _, h9⟩ := claim_C8_tick vResized rfl
  have hcond : ((updateSizeStep vResized).dirty || vResized.autoRedraw) = true := by
    decide
  refine ⟨h1, h2, ?_, h5.mpr hcond, h7 hcond, h9⟩
  rw [h3]
  decide

end UrdfViewer
